import Mathlib

set_option maxRecDepth 4000

/-!
Shallow embedding of the marketplace adapter services: the Google Drive and
Shopify auth resolvers, the Shopify domain normalization, the Gmail message
encoder and mail operations, and the Shopify customer/collection wrappers.
Definitions are translated from the TypeScript sources; provider network
effects are modelled by passing the provider response as an explicit value.
-/

/-- Whitespace characters recognized by the JavaScript trim operation and by
the regex whitespace class: WhiteSpace plus LineTerminator code points. -/
def wsChars : List Char :=
  [' ', '\t', '\n', '\x0b', '\x0c', '\r',
   '\u00A0', '\u1680',
   '\u2000', '\u2001', '\u2002', '\u2003', '\u2004', '\u2005', '\u2006',
   '\u2007', '\u2008', '\u2009', '\u200A',
   '\u2028', '\u2029', '\u202F', '\u205F', '\u3000', '\uFEFF']

/-- Test for membership in the JavaScript whitespace class. -/
def isJsWs (c : Char) : Bool :=
  decide (c ∈ wsChars)

/-- Truthiness of a JavaScript string: every string except the empty one. -/
def jsStrTruthy (s : String) : Bool :=
  !(s == "")

/-- Truthiness of a possibly-undefined JavaScript string value. -/
def jsOptTruthy (o : Option String) : Bool :=
  match o with
  | none => false
  | some s => jsStrTruthy s

/-- The JavaScript expression a || b for a possibly-undefined string a and a
string literal b: the first operand when truthy, the second otherwise. -/
def jsOr (a : Option String) (b : String) : String :=
  match a with
  | none => b
  | some s => if jsStrTruthy s then s else b

/-- The JavaScript expression a || b when both operands may be undefined. -/
def jsOrOpt (a b : Option String) : Option String :=
  if jsOptTruthy a then a else b

/-- The JavaScript trim operation on a character list: drop whitespace from
both ends. -/
def jsTrimL (l : List Char) : List Char :=
  ((l.dropWhile isJsWs).reverse.dropWhile isJsWs).reverse

/-- Alphanumeric ASCII character, the class written a-zA-Z0-9 in the shop
name pattern. -/
def isShopAlnum (c : Char) : Bool :=
  c.isAlpha || c.isDigit

/-- Character allowed in the interior of a shop name: alphanumeric, dot or
hyphen. -/
def shopChar (c : Char) : Bool :=
  isShopAlnum c || c == '.' || c == '-'

/-- Matcher for the tail of the shop name pattern: the final character must
be alphanumeric and every character before it must be in the interior
class. An empty tail is rejected, so the whole name needs two characters. -/
def validShopTail : List Char → Bool
  | [] => false
  | [c] => isShopAlnum c
  | c :: c2 :: cs => shopChar c && validShopTail (c2 :: cs)

/-- Matcher for the shop name pattern together with the redundant length
check performed by the source. -/
def isValidShopName (l : List Char) : Bool :=
  (match l with
   | [] => false
   | c :: cs => isShopAlnum c && validShopTail cs) && decide (1 ≤ l.length)

/-- The characters of the fully qualified shop domain suffix. -/
def shopSuffix : List Char :=
  (".myshopify.com").data

/-- Removal of a protocol scheme at the start of the domain, modelling the
anchored regex replacement of an http or https scheme by the empty string. -/
def stripProto (l : List Char) : List Char :=
  if (("https://").data).isPrefixOf l then l.drop 8
  else if (("http://").data).isPrefixOf l then l.drop 7
  else l

/-- Removal of a single trailing slash, modelling the anchored regex
replacement of a final slash by the empty string. -/
def stripTrailSlash (l : List Char) : List Char :=
  if l.getLast? == some '/' then l.dropLast else l

/-- Removal of the first occurrence of a pattern from a list, modelling the
JavaScript string replace of a literal pattern by the empty string. -/
def removeFirstOcc (pat : List Char) : List Char → List Char
  | [] => []
  | c :: cs =>
    if pat.isPrefixOf (c :: cs) then (c :: cs).drop pat.length
    else c :: removeFirstOcc pat cs

/-- Shop domain normalization on character lists: trim, reject the empty
name, strip a protocol scheme and a trailing slash, then either validate the
shop name embedded in an already qualified domain or validate the bare name
and append the domain suffix. Thrown errors are modelled by the error case. -/
def normalizeShopifyDomainL (s : List Char) : Except String (List Char) :=
  let t := jsTrimL s
  if t.isEmpty then .error ("El nombre de la tienda no puede estar vacío")
  else
    let d := stripTrailSlash (stripProto t)
    if shopSuffix.isSuffixOf d then
      if isValidShopName (removeFirstOcc shopSuffix d) then .ok d
      else .error ("Nombre de tienda inválido")
    else
      if isValidShopName d then .ok (d ++ shopSuffix)
      else .error ("Nombre de tienda inválido")

deriving instance DecidableEq for Except

/-- Shop domain normalization on strings. -/
def normalizeShopifyDomain (s : String) : Except String String :=
  match normalizeShopifyDomainL s.data with
  | .ok l => .ok (String.mk l)
  | .error e => .error e

/-- Authentication context injected by the OAuth2 middleware: request
headers, optional identifiers and token, the authorization URL and validity
flag, and the metadata field reduced to the user info name read by the
Shopify resolver. -/
structure AuthContext where
  headers : List (String × Option String) := []
  userId : Option String := none
  accessToken : Option String := none
  authUrl : Option String := none
  valid : Option Bool := none
  error : Option String := none
  userInfoName : Option String := none
deriving DecidableEq, Repr

/-- Lookup of a header value in the request headers record. -/
def lookupHeader (headers : List (String × Option String)) (k : String) : Option String :=
  match headers.find? (fun p => p.fst == k) with
  | some p => p.snd
  | none => none

/-- Configuration handed to the Drive client wrapper constructor. -/
structure DriveConfig where
  accessToken : String
deriving DecidableEq, Repr

/-- Result of the Drive auth resolver: either a constructed client wrapper
or an error object with an optional authorization URL. -/
inductive DriveServiceResult where
  | service (config : DriveConfig)
  | errorInfo (error : String) (authUrl : Option String)
deriving DecidableEq, Repr

/-- The Drive auth resolver: returns the error object when the context is
marked invalid and carries an authorization URL, then the missing-token
error, and otherwise constructs the client wrapper. -/
def createDriveService (auth : Option AuthContext) : DriveServiceResult :=
  let accessToken : Option String := auth.bind AuthContext.accessToken
  let aUrl : Option String := auth.bind AuthContext.authUrl
  if ((auth.bind AuthContext.valid) == some false) && jsOptTruthy aUrl then
    .errorInfo
      (("Authentication required. Please visit this URL to authorize Google Drive access: ")
        ++ aUrl.getD (""))
      aUrl
  else if !(jsOptTruthy accessToken) then
    .errorInfo
      ("Authentication failed: No access token available. Please ensure you are authenticated.")
      none
  else
    .service { accessToken := accessToken.getD ("") }

/-- Configuration handed to the Shopify client wrapper constructor. -/
structure ShopifyConfig where
  accessToken : String
  shopDomain : String
deriving DecidableEq, Repr

/-- Result of the Shopify auth resolver: a constructed client wrapper, a
returned error object, or a thrown exception escaping the resolver. -/
inductive ShopifyServiceResult where
  | service (config : ShopifyConfig)
  | errorValue (error : String)
  | thrown (message : String)
deriving DecidableEq, Repr

/-- The Shopify auth resolver: returns error objects for an invalid context,
a missing access token, or a missing shop domain; then normalizes the
derived domain, whose validation failure is a thrown exception because the
call is not guarded. -/
def createShopifyService (auth : Option AuthContext) : ShopifyServiceResult :=
  match auth with
  | none => .errorValue ("Authentication required. Please authenticate with Shopify first.")
  | some a =>
    if !(a.valid == some true) then
      .errorValue (jsOr a.error ("Authentication required. Please authenticate with Shopify first."))
    else if !(jsOptTruthy a.accessToken) then
      .errorValue ("Access token is required but was not provided.")
    else
      let shopDomain := jsOrOpt (lookupHeader a.headers ("x-mkp-shopify-domain")) a.userInfoName
      if !(jsOptTruthy shopDomain) then
        .errorValue
          ("Shopify domain is required. Please provide the shop domain in the x-mkp-shopify-domain header.")
      else
        match normalizeShopifyDomain (shopDomain.getD ("")) with
        | .error e => .thrown e
        | .ok d => .service { accessToken := a.accessToken.getD (""), shopDomain := d }

/-- Character admissible in the email address pattern: anything except
whitespace and the at sign, the class written as a negated set in the
source regex. -/
def emailChar (c : Char) : Bool :=
  !(isJsWs c) && !(c == '@')

/-- Test for a dot with at least one character on each side, the shape
required of the domain part by the email address pattern. -/
def hasInteriorDot : List Char → Bool
  | [] => false
  | [_] => false
  | _ :: c :: cs => (c == '.' && !(cs.isEmpty)) || hasInteriorDot (c :: cs)

/-- Email address validation on character lists: the anchored pattern of a
nonempty local part, one at sign, and a domain part containing a dot with
nonempty pieces on both sides, all over the email character class. -/
def validateEmailL (l : List Char) : Bool :=
  match l.splitOn '@' with
  | [a, d] => !(a.isEmpty) && a.all emailChar && d.all emailChar && hasInteriorDot d
  | _ => false

/-- Email address validation against the permissive regex of the source. -/
def validateEmail (s : String) : Bool :=
  validateEmailL s.data

/-- Hex digit characters for the escape sequences of the JSON serializer. -/
def hexDigit (n : Nat) : Char :=
  (("0123456789abcdef").data).getD n ('0')

/-- The base64 alphabet used by the subject header encoder. -/
def base64Chars : List Char :=
  ("ABCDEFGHIJKLMNOPQRSTUVWXYZabcdefghijklmnopqrstuvwxyz0123456789+/").data

/-- Base64 encoding of a byte list, three bytes to four output characters
with equals-sign padding. -/
def b64EncodeBytes : List Nat → List Char
  | [] => []
  | [a] =>
    [base64Chars.getD (a / 4) ('A'),
     base64Chars.getD ((a % 4) * 16) ('A'), '=', '=']
  | [a, b] =>
    [base64Chars.getD (a / 4) ('A'),
     base64Chars.getD ((a % 4) * 16 + b / 16) ('A'),
     base64Chars.getD ((b % 16) * 4) ('A'), '=']
  | a :: b :: c :: rest =>
    base64Chars.getD (a / 4) ('A') ::
    base64Chars.getD ((a % 4) * 16 + b / 16) ('A') ::
    base64Chars.getD ((b % 16) * 4 + c / 64) ('A') ::
    base64Chars.getD (c % 64) ('A') :: b64EncodeBytes rest

/-- RFC 2047 subject header encoding: headers containing a character outside
the ASCII range are wrapped in a UTF-8 base64 encoded word, all others are
left verbatim. -/
def encodeEmailHeader (text : String) : String :=
  if text.data.any (fun c => 127 < c.toNat) then
    ("=?UTF-8?B?") ++ String.mk (b64EncodeBytes (text.toUTF8.toList.map (fun b => b.toNat))) ++ ("?=")
  else text

/-- Request fields accepted by the send-mail operation. -/
structure EmailRequest where
  recipients : List String
  subject : String
  body : String
  htmlBody : Option String := none
  mimeType : Option String := none
  cc : Option (List String) := none
  bcc : Option (List String) := none
  threadId : Option String := none
  inReplyTo : Option String := none
deriving DecidableEq, Repr

/-- Effective content type of an outbound message: the explicit override
when truthy, multipart when both bodies are truthy, HTML when only the HTML
body is, plain text otherwise. -/
def mimeTypeOf (req : EmailRequest) : String :=
  if jsOptTruthy req.mimeType then req.mimeType.getD ("")
  else if jsOptTruthy req.htmlBody && jsStrTruthy req.body then ("multipart/alternative")
  else if jsOptTruthy req.htmlBody then ("text/html")
  else ("text/plain")

/-- Header lines of the outbound message: the fixed-order common headers
with the untruthy optional entries removed by the boolean filter. -/
def headerLines (req : EmailRequest) : List String :=
  ([("From: me"),
    ("To: ") ++ String.intercalate (", ") req.recipients,
    (match req.cc with
     | some cc => ("Cc: ") ++ String.intercalate (", ") cc
     | none => ("")),
    (match req.bcc with
     | some bcc => ("Bcc: ") ++ String.intercalate (", ") bcc
     | none => ("")),
    ("Subject: ") ++ encodeEmailHeader req.subject,
    (if jsOptTruthy req.inReplyTo then ("In-Reply-To: ") ++ req.inReplyTo.getD ("") else ("")),
    (if jsOptTruthy req.inReplyTo then ("References: ") ++ req.inReplyTo.getD ("") else ("")),
    ("MIME-Version: 1.0")]).filter (fun s => !(s == ""))

/-- First invalid address of an optional address list, none when the list is
absent or every address validates. -/
def firstInvalid (l : Option (List String)) : Option String :=
  match l with
  | some addrs => addrs.find? (fun e => !(validateEmail e))
  | none => none

/-- Message builder of the send-mail operation, returning the emitted lines
before the CRLF join. Address validation failures are the thrown errors of
the source, modelled by the error case; the random multipart boundary is an
explicit argument. -/
def createEmailMessageParts (req : EmailRequest) (boundary : String) :
    Except String (List String) :=
  match firstInvalid (some req.recipients) with
  | some bad => .error (("Recipient email address is invalid: ") ++ bad)
  | none =>
  match firstInvalid req.cc with
  | some bad => .error (("CC email address is invalid: ") ++ bad)
  | none =>
  match firstInvalid req.bcc with
  | some bad => .error (("BCC email address is invalid: ") ++ bad)
  | none =>
    let mt := mimeTypeOf req
    let hdr := headerLines req
    if mt == ("multipart/alternative") then
      .ok (hdr ++
        [("Content-Type: multipart/alternative; boundary=\"") ++ boundary ++ ("\""),
         (""),
         ("--") ++ boundary,
         ("Content-Type: text/plain; charset=UTF-8"),
         ("Content-Transfer-Encoding: 7bit"),
         (""),
         req.body,
         (""),
         ("--") ++ boundary,
         ("Content-Type: text/html; charset=UTF-8"),
         ("Content-Transfer-Encoding: 7bit"),
         (""),
         jsOr req.htmlBody req.body,
         (""),
         ("--") ++ boundary ++ ("--")])
    else if mt == ("text/html") then
      .ok (hdr ++
        [("Content-Type: text/html; charset=UTF-8"),
         ("Content-Transfer-Encoding: 7bit"),
         (""),
         jsOr req.htmlBody req.body])
    else
      .ok (hdr ++
        [("Content-Type: text/plain; charset=UTF-8"),
         ("Content-Transfer-Encoding: 7bit"),
         (""),
         req.body])

/-- The raw message of the send-mail operation: the emitted lines joined by
CRLF. -/
def createEmailMessage (req : EmailRequest) (boundary : String) : Except String String :=
  (createEmailMessageParts req boundary).map (String.intercalate ("\r\n"))

/-- Data field of the provider send response, carrying an optional message
identifier. -/
structure SendData where
  id : Option String := none
deriving DecidableEq, Repr

/-- Outcome of the provider send call: a thrown exception with its optional
message and optional response error detail, or a response with an optional
data object. -/
inductive SendOutcome where
  | thrown (message : Option String) (respErrMsg : Option String)
  | resp (data : Option SendData)
deriving DecidableEq, Repr

/-- Envelope returned by the mail operations. -/
structure EmailResponse where
  success : Bool
  messageId : Option String := none
  error : Option String := none
  details : Option String := none
deriving DecidableEq, Repr

/-- The send-mail operation: builds the raw message, then reports a thrown
exception through the catch-all envelope, rejects a provider response whose
data carries no truthy message identifier, and reports success with the
identifier otherwise. -/
def sendEmail (req : EmailRequest) (boundary : String) (outcome : SendOutcome) :
    EmailResponse :=
  match createEmailMessageParts req boundary with
  | .error m =>
    { success := false,
      error := some (jsOr (some m) ("Failed to send email")),
      details := some ("Unknown error occurred") }
  | .ok _ =>
    match outcome with
    | .thrown msg respErrMsg =>
      { success := false,
        error := some (jsOr msg ("Failed to send email")),
        details := some (jsOr respErrMsg ("Unknown error occurred")) }
    | .resp data =>
      match data with
      | none =>
        { success := false,
          error := some ("Gmail API did not return a message ID"),
          details := some ("The email may not have been sent successfully") }
      | some d =>
        if !(jsOptTruthy d.id) then
          { success := false,
            error := some ("Gmail API did not return a message ID"),
            details := some ("The email may not have been sent successfully") }
        else
          { success := true,
            messageId := some (d.id.getD ("")),
            details := some ("Email sent successfully") }

/-- Request fields accepted by the modify-email operation. -/
structure ModifyEmailRequest where
  messageId : String
  addLabelIds : Option (List String) := none
  removeLabelIds : Option (List String) := none
deriving DecidableEq, Repr

/-- Envelope returned by the modify-email operation. -/
structure ModifyEmailResponse where
  success : Bool
  messageId : Option String := none
  error : Option String := none
deriving DecidableEq, Repr

/-- The modify-email operation: assembles the request body from the truthy
nonempty label lists, rejects the request before any provider call when the
body is empty, and otherwise reports the provider outcome; the boolean of
the returned pair records whether the provider call was issued. -/
def modifyEmail (req : ModifyEmailRequest) (provider : Except (Option String) Unit) :
    ModifyEmailResponse × Bool :=
  let addL : Option (List String) :=
    match req.addLabelIds with
    | some l => if 0 < l.length then some l else none
    | none => none
  let removeL : Option (List String) :=
    match req.removeLabelIds with
    | some l => if 0 < l.length then some l else none
    | none => none
  if addL == none && removeL == none then
    ({ success := false,
       error := some ("At least one of addLabelIds or removeLabelIds must be provided") }, false)
  else
    match provider with
    | .error m =>
      ({ success := false,
         error := some (jsOr m ("Unknown error occurred while modifying email")) }, true)
    | .ok _ =>
      ({ success := true, messageId := some req.messageId }, true)

/-- JSON values, the shape of provider response bodies. -/
inductive Json where
  | null
  | bool (b : Bool)
  | num (n : Int)
  | str (s : String)
  | arr (items : List Json)
  | obj (fields : List (String × Json))

/-- Truthiness of a JSON value seen as a JavaScript value: null, false, zero
and the empty string are falsy, every array and object is truthy. -/
def jsTruthy : Json → Bool
  | .null => false
  | .bool b => b
  | .num n => !(n == 0)
  | .str s => !(s == "")
  | .arr _ => true
  | .obj _ => true

/-- Field access on a JSON value: the first binding of the key in an object,
none otherwise. -/
def jsonGet (j : Json) (k : String) : Option Json :=
  match j with
  | .obj fields => (fields.find? (fun p => p.fst == k)).map (fun p => p.snd)
  | _ => none

/-- Hex digits used for control character escapes. -/
def escapeJsonChar (c : Char) : String :=
  if c == '"' then ("\\\"")
  else if c == '\\' then ("\\\\")
  else if c == '\n' then ("\\n")
  else if c == '\r' then ("\\r")
  else if c == '\t' then ("\\t")
  else if c == '\x08' then ("\\b")
  else if c == '\x0c' then ("\\f")
  else if c.toNat < 32 then
    ("\\u00") ++ String.mk [hexDigit (c.toNat / 16), hexDigit (c.toNat % 16)]
  else String.singleton c

/-- JSON string quoting with the escapes of the JavaScript serializer. -/
def quoteJson (s : String) : String :=
  ("\"") ++ String.join (s.data.map escapeJsonChar) ++ ("\"")

mutual

/-- The JavaScript JSON serializer restricted to the values of the model:
insertion order of object fields is preserved. -/
def jsonStringify : Json → String
  | .null => ("null")
  | .bool true => ("true")
  | .bool false => ("false")
  | .num n => toString n
  | .str s => quoteJson s
  | .arr items => ("[") ++ jsonStringifyList items ++ ("]")
  | .obj fields => ("\x7b") ++ jsonStringifyFields fields ++ ("\x7d")

/-- Comma-separated serialization of array items. -/
def jsonStringifyList : List Json → String
  | [] => ("")
  | [j] => jsonStringify j
  | j :: j2 :: rest => jsonStringify j ++ (",") ++ jsonStringifyList (j2 :: rest)

/-- Comma-separated serialization of object fields. -/
def jsonStringifyFields : List (String × Json) → String
  | [] => ("")
  | [p] => quoteJson p.fst ++ (":") ++ jsonStringify p.snd
  | p :: p2 :: rest => quoteJson p.fst ++ (":") ++ jsonStringify p.snd ++ (",")
      ++ jsonStringifyFields (p2 :: rest)

end

/-- The details string of a failed provider call: the serialized errors
value when the response body carries a truthy errors field, the generic
fallback otherwise. -/
def errorDetails (body : Json) : String :=
  match jsonGet body ("errors") with
  | some e => if jsTruthy e then jsonStringify e else ("Unknown error occurred")
  | none => ("Unknown error occurred")

/-- HTTP response handed back by the fetch call: the ok flag, status text
and parsed JSON body. -/
structure HttpResp where
  ok : Bool
  statusText : String
  body : Json

/-- Projected customer fields of a successful create-customer call. -/
structure CustomerData where
  customer_id : Option Json := none
  created_at : Option Json := none
  email : Option Json := none
  first_name : Option Json := none
  last_name : Option Json := none
  phone : Option Json := none

/-- Envelope returned by the create-customer operation. -/
structure CreateCustomerResponse where
  success : Bool
  data : Option CustomerData := none
  error : Option String := none
  details : Option String := none

/-- The create-customer operation as a function of the provider response:
a non-2xx response yields the failure envelope whose details string is the
serialized errors field or the generic fallback; a 2xx response projects
the customer fields; a missing or null customer object makes the field
access throw, which the catch-all turns into the failure envelope. -/
def createCustomer (resp : HttpResp) : CreateCustomerResponse :=
  if !(resp.ok) then
    { success := false,
      error := some (("Failed to create customer: ") ++ resp.statusText),
      details := some (errorDetails resp.body) }
  else
    match jsonGet resp.body ("customer") with
    | some (Json.obj fields) =>
      let c := Json.obj fields
      { success := true,
        data := some
          { customer_id := jsonGet c ("id"),
            created_at := jsonGet c ("created_at"),
            email := jsonGet c ("email"),
            first_name := jsonGet c ("first_name"),
            last_name := jsonGet c ("last_name"),
            phone := jsonGet c ("phone") } }
    | some (Json.null) =>
      { success := false,
        error := some ("Cannot read properties of null (reading 'id')"),
        details := some ("An unexpected error occurred while creating the customer") }
    | some other =>
      { success := true,
        data := some
          { customer_id := jsonGet other ("id"),
            created_at := jsonGet other ("created_at"),
            email := jsonGet other ("email"),
            first_name := jsonGet other ("first_name"),
            last_name := jsonGet other ("last_name"),
            phone := jsonGet other ("phone") } }
    | none =>
      { success := false,
        error := some ("Cannot read properties of undefined (reading 'id')"),
        details := some ("An unexpected error occurred while creating the customer") }

/-- Provider collection record as read from the response arrays. -/
structure RawCollection where
  id : Int
  title : String
  handle : String
deriving DecidableEq, Repr

/-- Normalized collection record pushed into the merged list. -/
structure CollectionListItem where
  collection_id : Int
  title : String
  handle : String
deriving DecidableEq, Repr

/-- Provider response to one of the two collection list requests: the ok
flag and status text, the errors field of the parsed body, and the optional
collections array of the parsed body. -/
structure CollectionsResp where
  ok : Bool
  statusText : String
  errors : Option Json := none
  collections : Option (List RawCollection) := none

/-- Envelope returned by the list-collections operation. -/
structure ListCollectionsResponse where
  success : Bool
  data : Option (List CollectionListItem) := none
  error : Option String := none
  details : Option String := none

/-- Details string of a failed collection list request. -/
def collDetails (errors : Option Json) : String :=
  match errors with
  | some e => if jsTruthy e then jsonStringify e else ("Unknown error occurred")
  | none => ("Unknown error occurred")

/-- Normalization of one provider collection record. -/
def toCollectionItem (r : RawCollection) : CollectionListItem :=
  { collection_id := r.id, title := r.title, handle := r.handle }

/-- The list-collections fan-out merge as a function of the two provider
responses: the custom-collections failure is checked first, then the
smart-collections failure, and on success the normalized custom records are
concatenated before the normalized smart records in provider order. -/
def listCollections (custom smart : CollectionsResp) : ListCollectionsResponse :=
  if !(custom.ok) then
    { success := false,
      error := some (("Failed to fetch custom collections: ") ++ custom.statusText),
      details := some (collDetails custom.errors) }
  else if !(smart.ok) then
    { success := false,
      error := some (("Failed to fetch smart collections: ") ++ smart.statusText),
      details := some (collDetails smart.errors) }
  else
    { success := true,
      data := some ((custom.collections.getD []).map toCollectionItem
        ++ (smart.collections.getD []).map toCollectionItem) }

/-- C1 counterexample input: a context marked invalid that carries an access
token but no authorization URL. -/
def c1Ctx : AuthContext :=
  { accessToken := some ("tok"), valid := some false }

/-- C2 counterexample input: a valid context whose derived store domain
fails the shop name pattern. -/
def c2Ctx : AuthContext :=
  { headers := [(("x-mkp-shopify-domain"), some ("-bad-"))],
    accessToken := some ("t"), valid := some true }

/-- C7 concrete provider response: HTTP 422 with a structured errors body. -/
def c7Resp : HttpResp :=
  { ok := false, statusText := ("Unprocessable Entity"),
    body := Json.obj [(("errors"),
      Json.obj [(("email"), Json.arr [Json.str ("has already been taken")])])] }

/-- C7 counterexample input: a non-2xx body whose errors field is present
but null. -/
def c7NullResp : HttpResp :=
  { ok := false, statusText := ("Unprocessable Entity"),
    body := Json.obj [(("errors"), Json.null)] }

/-- C4 witness input: both a plain and an HTML body, no override. -/
def c4Req : EmailRequest :=
  { recipients := [("user@example.com")], subject := ("Hello"),
    body := ("Hi"), htmlBody := some ("<b>Hi</b>") }

/-- C5 counterexample input: an HTML body beside an empty plain body and no
override. -/
def c5Req : EmailRequest :=
  { recipients := [("user@example.com")], subject := ("S"),
    body := (""), htmlBody := some ("<b>Hi</b>") }

/-- Final character of a character list, with a default for the empty
list. -/
def lastChar : List Char → Char → Char
  | [], d => d
  | [c], _ => c
  | _ :: c :: cs, d => lastChar (c :: cs) d

/-- Invariant of domains produced by normalization: every character is a
shop name character, the domain suffix is a suffix, and removing the first
occurrence of the domain suffix leaves a valid shop name. -/
def goodShopDomain (d : List Char) : Prop :=
  (∀ c ∈ d, shopChar c = true) ∧ shopSuffix.isSuffixOf d = true ∧
    isValidShopName (removeFirstOcc shopSuffix d) = true

/-- C1: the claim that a context with valid equal to false never yields a
constructed client fails on this input: the resolver falls through the
guard, which also requires a truthy authorization URL, and constructs the
client wrapper from the present access token. -/
theorem C1_counterexample :
    c1Ctx.valid = some false ∧ c1Ctx.authUrl = none ∧
    createDriveService (some c1Ctx) = .service { accessToken := ("tok") } := by
  refine ⟨rfl, rfl, rfl⟩

/-- C1 (amended): for a context with valid equal to false, the resolver
returns the error object carrying the authorization URL when that URL is
supplied and truthy; when no URL is supplied it falls through to the token
check, constructing the client wrapper whenever an access token is present
and returning the no-token error otherwise. -/
theorem C1_theorem (a : AuthContext) (hv : a.valid = some false) :
    (jsOptTruthy a.authUrl = true →
      createDriveService (some a) =
        .errorInfo
          (("Authentication required. Please visit this URL to authorize Google Drive access: ")
            ++ a.authUrl.getD ("")) a.authUrl) ∧
    (jsOptTruthy a.authUrl = false → jsOptTruthy a.accessToken = true →
      createDriveService (some a) = .service { accessToken := a.accessToken.getD ("") }) ∧
    (jsOptTruthy a.authUrl = false → jsOptTruthy a.accessToken = false →
      createDriveService (some a) =
        .errorInfo
          ("Authentication failed: No access token available. Please ensure you are authenticated.")
          none) := by
  refine ⟨fun h1 => ?_, fun h1 h2 => ?_, fun h1 h2 => ?_⟩ <;>
    simp [createDriveService, Option.bind, hv, h1, *]

/-- C1 witness: the amended theorem evaluated at a concrete invalid context
carrying an authorization URL. -/
theorem C1_witness :
    createDriveService
        (some { authUrl := some ("https://auth.example"), valid := some false }) =
      .errorInfo
        (("Authentication required. Please visit this URL to authorize Google Drive access: ")
          ++ ("https://auth.example")) (some ("https://auth.example")) := by
  have h := (C1_theorem { authUrl := some ("https://auth.example"), valid := some false } rfl).1
    (by decide)
  simpa using h

/-- C2: the claim that an invalid domain is returned as an error value
fails on this input: the unguarded normalization call throws, and the
exception escapes the resolver instead of becoming a returned error. -/
theorem C2_counterexample :
    createShopifyService (some c2Ctx) = .thrown ("Nombre de tienda inválido") := by
  rfl

/-- C2 (amended): when the context is valid with a truthy access token and a
truthy derived store domain whose normalization fails the pattern check, the
resolver propagates the thrown invalid-domain error rather than returning an
error value; returned error values arise only from the invalid-context,
missing-token and missing-domain guards. -/
theorem C2_theorem (a : AuthContext) (hv : a.valid = some true)
    (ht : jsOptTruthy a.accessToken = true)
    (dm : String)
    (hd : jsOrOpt (lookupHeader a.headers ("x-mkp-shopify-domain")) a.userInfoName = some dm)
    (hdm : jsStrTruthy dm = true)
    (e : String) (hn : normalizeShopifyDomain dm = .error e) :
    createShopifyService (some a) = .thrown e := by
  have ht2 : (match a.accessToken with
    | none => false
    | some s => jsStrTruthy s) = true := ht
  simp [createShopifyService, hv, hd, hdm, jsOptTruthy, hn, ht2]

/-- C2 witness: the amended theorem evaluated at the concrete context whose
derived domain is rejected by the pattern. -/
theorem C2_witness :
    createShopifyService (some c2Ctx) = .thrown ("Nombre de tienda inválido") ∧
    normalizeShopifyDomain ("-bad-") = .error ("Nombre de tienda inválido") := by
  refine ⟨C2_theorem c2Ctx rfl (by decide) ("-bad-") (by decide) (by decide)
    ("Nombre de tienda inválido") (by decide), by decide⟩

/-- C6: the fan-out merge surfaces the custom-collections failure first,
then the smart-collections failure, and on double success returns the
normalized custom records concatenated before the normalized smart records,
both in provider order. -/
theorem C6_theorem (custom smart : CollectionsResp) :
    (custom.ok = false →
      listCollections custom smart =
        { success := false,
          error := some (("Failed to fetch custom collections: ") ++ custom.statusText),
          details := some (collDetails custom.errors) }) ∧
    (custom.ok = true → smart.ok = false →
      listCollections custom smart =
        { success := false,
          error := some (("Failed to fetch smart collections: ") ++ smart.statusText),
          details := some (collDetails smart.errors) }) ∧
    (custom.ok = true → smart.ok = true →
      listCollections custom smart =
        { success := true,
          data := some ((custom.collections.getD []).map toCollectionItem
            ++ (smart.collections.getD []).map toCollectionItem) }) := by
  refine ⟨fun h1 => ?_, fun h1 h2 => ?_, fun h1 h2 => ?_⟩ <;>
    simp [listCollections, h1, *]

/-- C6 witness: the merge evaluated at a failing custom response beside a
succeeding smart response, and at a pair of succeeding responses. -/
theorem C6_witness :
    listCollections { ok := false, statusText := ("Forbidden") }
        { ok := true, statusText := ("OK"),
          collections := some [{ id := 7, title := ("Smart"), handle := ("smart") }] } =
      { success := false,
        error := some ("Failed to fetch custom collections: Forbidden"),
        details := some ("Unknown error occurred") } ∧
    listCollections
        { ok := true, statusText := ("OK"),
          collections := some [{ id := 1, title := ("A"), handle := ("a") }] }
        { ok := true, statusText := ("OK"),
          collections := some [{ id := 7, title := ("Smart"), handle := ("smart") }] } =
      { success := true,
        data := some [{ collection_id := 1, title := ("A"), handle := ("a") },
          { collection_id := 7, title := ("Smart"), handle := ("smart") }] } := by
  constructor
  · have h := (C6_theorem { ok := false, statusText := ("Forbidden") }
      { ok := true, statusText := ("OK"),
        collections := some [{ id := 7, title := ("Smart"), handle := ("smart") }] }).1 rfl
    simpa [collDetails] using h
  · have h := (C6_theorem
      { ok := true, statusText := ("OK"),
        collections := some [{ id := 1, title := ("A"), handle := ("a") }] }
      { ok := true, statusText := ("OK"),
        collections := some [{ id := 7, title := ("Smart"), handle := ("smart") }] }).2.2 rfl rfl
    simpa [toCollectionItem] using h

/-- C7: the clause that the generic fallback is used only when the body has
no errors field fails on this input: the errors field is present but falsy,
and the generic fallback is still used. -/
theorem C7_counterexample :
    jsonGet c7NullResp.body ("errors") = some Json.null ∧
    (createCustomer c7NullResp).details = some ("Unknown error occurred") := by
  exact ⟨rfl, rfl⟩

/-- C7 (amended): a 422 response with a truthy errors value yields the
failure envelope whose details string is the serialized errors value, as on
the concrete duplicate-email body; the generic fallback is used exactly when
the errors field of the non-2xx body is absent or falsy. -/
theorem C7_theorem :
    (createCustomer c7Resp =
      { success := false,
        error := some ("Failed to create customer: Unprocessable Entity"),
        details := some ("\x7b\"email\":[\"has already been taken\"]\x7d") }) ∧
    (∀ resp : HttpResp, resp.ok = false → resp.statusText = ("Unprocessable Entity") →
      ∀ e, jsonGet resp.body ("errors") = some e → jsTruthy e = true →
        createCustomer resp =
          { success := false,
            error := some ("Failed to create customer: Unprocessable Entity"),
            details := some (jsonStringify e) }) ∧
    (∀ resp : HttpResp, resp.ok = false →
      (jsonGet resp.body ("errors") = none ∨
        (∃ e, jsonGet resp.body ("errors") = some e ∧ jsTruthy e = false)) →
      createCustomer resp =
        { success := false,
          error := some (("Failed to create customer: ") ++ resp.statusText),
          details := some ("Unknown error occurred") }) := by
  refine ⟨rfl, fun resp hok hst e hget ht => ?_, fun resp hok hfall => ?_⟩
  · simp [createCustomer, errorDetails, hok, hst, hget, ht]
  · rcases hfall with hnone | ⟨e, hget, hf⟩ <;>
      simp [createCustomer, errorDetails, hok, *]

/-- C7 witness: the amended theorem evaluated at the concrete 422 response
with the duplicate-email errors body. -/
theorem C7_witness :
    createCustomer c7Resp =
      { success := false,
        error := some ("Failed to create customer: Unprocessable Entity"),
        details := some ("\x7b\"email\":[\"has already been taken\"]\x7d") } ∧
    createCustomer c7NullResp =
      { success := false,
        error := some ("Failed to create customer: Unprocessable Entity"),
        details := some ("Unknown error occurred") } := by
  refine ⟨C7_theorem.1, ?_⟩
  have h := C7_theorem.2.2 c7NullResp rfl (Or.inr ⟨Json.null, rfl, rfl⟩)
  simpa using h

/-- C9: a provider send response carrying no data object or no truthy
message identifier yields the failure envelope naming the missing message
identifier, and a success envelope always carries a nonempty message
identifier. -/
theorem C9_theorem (req : EmailRequest) (b : String) (lines : List String)
    (hok : createEmailMessageParts req b = .ok lines) :
    (∀ d : Option SendData,
      (d = none ∨ ∃ dd, d = some dd ∧ jsOptTruthy dd.id = false) →
      sendEmail req b (.resp d) =
        { success := false,
          error := some ("Gmail API did not return a message ID"),
          details := some ("The email may not have been sent successfully") }) ∧
    (∀ o : SendOutcome, (sendEmail req b o).success = true →
      ∃ m, (sendEmail req b o).messageId = some m ∧ jsStrTruthy m = true) := by
  constructor
  · intro d hd
    rcases hd with rfl | ⟨dd, rfl, hdd⟩ <;> simp [sendEmail, hok, *]
  · intro o hsucc
    rcases o with ⟨msg, rem⟩ | d
    · simp [sendEmail, hok] at hsucc
    · rcases d with _ | dd
      · simp [sendEmail, hok] at hsucc
      · by_cases hid : jsOptTruthy dd.id = true
        · refine ⟨dd.id.getD (""), ?_, ?_⟩
          · simp [sendEmail, hok, hid]
          · rcases hdd : dd.id with _ | s
            · rw [hdd] at hid; simp [jsOptTruthy] at hid
            · rw [hdd] at hid; simpa [jsOptTruthy, Option.getD] using hid
        · rw [Bool.not_eq_true] at hid
          simp [sendEmail, hok, hid] at hsucc

/-- C9 witness: the theorem evaluated at a concrete request and a provider
response whose data object has no identifier. -/
theorem C9_witness :
    sendEmail
        { recipients := [("user@example.com")], subject := ("S"), body := ("Hi") }
        ("B") (.resp (some { id := none })) =
      { success := false,
        error := some ("Gmail API did not return a message ID"),
        details := some ("The email may not have been sent successfully") } := by
  have h := (C9_theorem
    { recipients := [("user@example.com")], subject := ("S"), body := ("Hi") }
    ("B") _ rfl).1 (some { id := none }) (Or.inr ⟨{ id := none }, rfl, rfl⟩)
  simpa using h

/-- C10: a modify request whose label lists are both absent or empty is
rejected with the dedicated error before any provider call is issued. -/
theorem C10_theorem (req : ModifyEmailRequest)
    (ha : req.addLabelIds = none ∨ req.addLabelIds = some [])
    (hr : req.removeLabelIds = none ∨ req.removeLabelIds = some []) :
    ∀ provider : Except (Option String) Unit,
      modifyEmail req provider =
        ({ success := false,
           error := some ("At least one of addLabelIds or removeLabelIds must be provided") },
         false) := by
  intro provider
  rcases ha with ha | ha <;> rcases hr with hr | hr <;>
    simp [modifyEmail, ha, hr]

/-- C10 witness: the theorem evaluated at a request carrying one absent and
one empty label list. -/
theorem C10_witness :
    modifyEmail { messageId := ("m1"), addLabelIds := some [] } (.ok ()) =
      ({ success := false,
         error := some ("At least one of addLabelIds or removeLabelIds must be provided") },
       false) :=
  C10_theorem { messageId := ("m1"), addLabelIds := some [] }
    (Or.inr rfl) (Or.inl rfl) (.ok ())

/-- C8: the validator accepts the well-formed address and rejects the three
malformed ones, and any invalid address in the recipient, cc or bcc lists
makes message construction fail with the error naming an offending invalid
address of the corresponding list. -/
theorem C8_theorem :
    validateEmail ("user@example.com") = true ∧
    validateEmail ("user@") = false ∧
    validateEmail ("@example.com") = false ∧
    validateEmail ("user example.com") = false ∧
    ∀ (req : EmailRequest) (b : String),
      (∃ e, (e ∈ req.recipients ∨ (∃ l, req.cc = some l ∧ e ∈ l) ∨
        (∃ l, req.bcc = some l ∧ e ∈ l)) ∧ validateEmail e = false) →
      ∃ bad, validateEmail bad = false ∧
        ((bad ∈ req.recipients ∧
           createEmailMessageParts req b =
             .error (("Recipient email address is invalid: ") ++ bad)) ∨
         ((∃ l, req.cc = some l ∧ bad ∈ l) ∧
           createEmailMessageParts req b =
             .error (("CC email address is invalid: ") ++ bad)) ∨
         ((∃ l, req.bcc = some l ∧ bad ∈ l) ∧
           createEmailMessageParts req b =
             .error (("BCC email address is invalid: ") ++ bad))) := by
  refine ⟨by decide, by decide, by decide, by decide, ?_⟩
  rintro req b ⟨e, he, hev⟩
  rcases h1 : firstInvalid (some req.recipients) with _ | bad
  · have h1' : List.find? (fun e => !(validateEmail e)) req.recipients = none := h1
    rcases h2 : firstInvalid req.cc with _ | bad
    · rcases h3 : firstInvalid req.bcc with _ | bad
      · exfalso
        rcases he with hmem | ⟨l, hcl, hmem⟩ | ⟨l, hcl, hmem⟩
        · have := List.find?_eq_none.mp h1' e hmem
          simp [hev] at this
        · rw [hcl] at h2
          have h2' : List.find? (fun e => !(validateEmail e)) l = none := h2
          have := List.find?_eq_none.mp h2' e hmem
          simp [hev] at this
        · rw [hcl] at h3
          have h3' : List.find? (fun e => !(validateEmail e)) l = none := h3
          have := List.find?_eq_none.mp h3' e hmem
          simp [hev] at this
      · rcases hbcc : req.bcc with _ | l
        · rw [hbcc] at h3; exact absurd h3 (by simp [firstInvalid])
        · rw [hbcc] at h3
          have h3' : List.find? (fun e => !(validateEmail e)) l = some bad := h3
          have hm := List.mem_of_find?_eq_some h3'
          have hp := List.find?_some h3'
          refine ⟨bad, by simpa using hp, Or.inr (Or.inr ⟨⟨l, rfl, hm⟩, ?_⟩)⟩
          rcases hcc2 : req.cc with _ | lcc
          · simp [createEmailMessageParts, firstInvalid, h1', hcc2, hbcc, h3']
          · rw [hcc2] at h2
            have h2c : List.find? (fun e => !(validateEmail e)) lcc = none := h2
            simp [createEmailMessageParts, firstInvalid, h1', hcc2, h2c, hbcc, h3']
    · rcases hcc : req.cc with _ | l
      · rw [hcc] at h2; exact absurd h2 (by simp [firstInvalid])
      · rw [hcc] at h2
        have h2' : List.find? (fun e => !(validateEmail e)) l = some bad := h2
        have hm := List.mem_of_find?_eq_some h2'
        have hp := List.find?_some h2'
        refine ⟨bad, by simpa using hp, Or.inr (Or.inl ⟨⟨l, rfl, hm⟩, ?_⟩)⟩
        simp [createEmailMessageParts, firstInvalid, h1', hcc, h2']
  · have h1' : List.find? (fun e => !(validateEmail e)) req.recipients = some bad := h1
    have hm := List.mem_of_find?_eq_some h1'
    have hp := List.find?_some h1'
    refine ⟨bad, by simpa using hp, Or.inl ⟨hm, ?_⟩⟩
    simp [createEmailMessageParts, firstInvalid, h1']

/-- C8 witness: the theorem evaluated at a request carrying one malformed
recipient address. -/
theorem C8_witness :
    validateEmail ("user@example.com") = true ∧
    ∃ bad, validateEmail bad = false ∧
      ((bad ∈ [("user@")] ∧
         createEmailMessageParts
             { recipients := [("user@")], subject := ("S"), body := ("Hi") } ("B") =
           .error (("Recipient email address is invalid: ") ++ bad)) ∨
       ((∃ l, (none : Option (List String)) = some l ∧ bad ∈ l) ∧
         createEmailMessageParts
             { recipients := [("user@")], subject := ("S"), body := ("Hi") } ("B") =
           .error (("CC email address is invalid: ") ++ bad)) ∨
       ((∃ l, (none : Option (List String)) = some l ∧ bad ∈ l) ∧
         createEmailMessageParts
             { recipients := [("user@")], subject := ("S"), body := ("Hi") } ("B") =
           .error (("BCC email address is invalid: ") ++ bad))) :=
  ⟨C8_theorem.1,
    C8_theorem.2.2.2.2 { recipients := [("user@")], subject := ("S"), body := ("Hi") } ("B")
      ⟨("user@"), Or.inl (by decide), by decide⟩⟩

/-- Data of an appended string is the appended data. -/
theorem strData_append (a b : String) : (a ++ b).data = a.data ++ b.data := rfl

/-- The first two characters of a list are preserved by appending when the
list supplies both. -/
theorem take2_append_list (l m : List Char) (c1 c2 : Char) (h : l.take 2 = [c1, c2]) :
    (l ++ m).take 2 = [c1, c2] := by
  match l, h with
  | a :: b :: rest, h =>
    simp [List.take] at h ⊢
    exact h
  | [], h => simp at h
  | [a], h => simp at h

/-- The first two characters of an appended string are those of the left
part when that part supplies two characters. -/
theorem take2_append (p x : String) (c1 c2 : Char) (h : p.data.take 2 = [c1, c2]) :
    (p ++ x).data.take 2 = [c1, c2] := by
  rw [strData_append]
  exact take2_append_list p.data x.data c1 c2 h

/-- Every emitted header line starts with the two characters of one of the
eight fixed header names. -/
theorem headerLines_take2 (req : EmailRequest) :
    ∀ s ∈ headerLines req,
      s.data.take 2 ∈
        ([[('F'), ('r')], [('T'), ('o')], [('C'), ('c')], [('B'), ('c')],
          [('S'), ('u')], [('I'), ('n')], [('R'), ('e')], [('M'), ('I')]] :
          List (List Char)) := by
  intro s hs
  unfold headerLines at hs
  rw [List.mem_filter] at hs
  obtain ⟨hmem, hne⟩ := hs
  simp only [List.mem_cons, List.not_mem_nil, or_false] at hmem
  rcases hmem with rfl | rfl | h | h | rfl | rfl | rfl | rfl
  · decide
  · rw [take2_append ("To: ") _ ('T') ('o') rfl]; decide
  · rcases hc : req.cc with _ | ccl <;> rw [hc] at h
    · subst h; simp at hne
    · subst h; rw [take2_append ("Cc: ") _ ('C') ('c') rfl]; decide
  · rcases hc : req.bcc with _ | bccl <;> rw [hc] at h
    · subst h; simp at hne
    · subst h; rw [take2_append ("Bcc: ") _ ('B') ('c') rfl]; decide
  · rw [take2_append ("Subject: ") _ ('S') ('u') rfl]; decide
  · by_cases hi : jsOptTruthy req.inReplyTo = true
    · rw [if_pos hi, take2_append ("In-Reply-To: ") _ ('I') ('n') rfl]; decide
    · rw [if_neg hi] at hne
      simp at hne
  · by_cases hi : jsOptTruthy req.inReplyTo = true
    · rw [if_pos hi, take2_append ("References: ") _ ('R') ('e') rfl]; decide
    · rw [if_neg hi] at hne
      simp at hne
  · decide

/-- Strings with different two-character prefixes differ. -/
theorem ne_of_take2 (s t : String) (cs ct : List Char)
    (hs2 : s.data.take 2 = cs) (ht2 : t.data.take 2 = ct) (h : cs ≠ ct) : s ≠ t := by
  intro he
  exact h (hs2.symm.trans (he ▸ ht2))

/-- The boundary marker line starts with two hyphens. -/
theorem marker_take2 (b : String) : ((("--") ++ b)).data.take 2 = [('-'), ('-')] :=
  take2_append ("--") b ('-') ('-') rfl

/-- The terminating boundary line starts with two hyphens. -/
theorem term_take2 (b : String) : ((("--") ++ b ++ ("--"))).data.take 2 = [('-'), ('-')] :=
  take2_append (("--") ++ b) ("--") ('-') ('-') (marker_take2 b)

/-- The multipart content type line starts with the content-type name. -/
theorem ctMulti_take2 (b : String) :
    ((("Content-Type: multipart/alternative; boundary=\"") ++ b ++ ("\""))).data.take 2 =
      [('C'), ('o')] :=
  take2_append _ ("\"") ('C') ('o')
    (take2_append ("Content-Type: multipart/alternative; boundary=\"") b ('C') ('o') rfl)

/-- No emitted header line is a boundary marker or terminating boundary. -/
theorem headerLines_ne_boundary (req : EmailRequest) (b : String) :
    ∀ s ∈ headerLines req, s ≠ ("--") ++ b ∧ s ≠ ("--") ++ b ++ ("--") := by
  intro s hs
  have ht2 := headerLines_take2 req s hs
  constructor <;> intro he <;> rw [he] at ht2
  · rw [marker_take2] at ht2
    exact absurd ht2 (by decide)
  · rw [term_take2] at ht2
    exact absurd ht2 (by decide)

/-- The terminating boundary differs from the boundary marker. -/
theorem term_ne_marker (b : String) : (("--") ++ b ++ ("--")) ≠ (("--") ++ b) := by
  intro he
  have hlen := congrArg String.length he
  simp only [String.length_append] at hlen
  have h2 : ("--").length = 2 := rfl
  rw [h2] at hlen
  omega

/-- A truthy optional HTML body wins the disjunction with the plain body. -/
theorem jsOr_truthy (o : Option String) (bdy : String) (h : jsOptTruthy o = true) :
    jsOr o bdy = o.getD ("") := by
  rcases o with _ | s
  · simp [jsOptTruthy] at h
  · have hs : jsStrTruthy s = true := h
    simp [jsOr, hs]

/-- C4: a request with both bodies truthy and no explicit override selects
the multipart content type; the emitted lines are the header lines followed
by the multipart content-type header, a plain part then an HTML part, each
with seven-bit transfer encoding and opened by a boundary marker, and the
terminating boundary; the full line list contains the boundary marker
exactly twice and the terminating boundary exactly once. -/
theorem C4_theorem (req : EmailRequest) (b : String)
    (hmt : req.mimeType = none)
    (hhb : jsOptTruthy req.htmlBody = true)
    (hb : jsStrTruthy req.body = true)
    (h1 : firstInvalid (some req.recipients) = none)
    (h2 : firstInvalid req.cc = none)
    (h3 : firstInvalid req.bcc = none)
    (hb1 : req.body ≠ ("--") ++ b)
    (hb2 : req.body ≠ ("--") ++ b ++ ("--"))
    (hh1 : req.htmlBody.getD ("") ≠ ("--") ++ b)
    (hh2 : req.htmlBody.getD ("") ≠ ("--") ++ b ++ ("--")) :
    mimeTypeOf req = ("multipart/alternative") ∧
    createEmailMessageParts req b = .ok (headerLines req ++
      [("Content-Type: multipart/alternative; boundary=\"") ++ b ++ ("\""), (""),
       ("--") ++ b,
       ("Content-Type: text/plain; charset=UTF-8"),
       ("Content-Transfer-Encoding: 7bit"), (""),
       req.body, (""),
       ("--") ++ b,
       ("Content-Type: text/html; charset=UTF-8"),
       ("Content-Transfer-Encoding: 7bit"), (""),
       req.htmlBody.getD (""), (""),
       ("--") ++ b ++ ("--")]) ∧
    (headerLines req ++
      [("Content-Type: multipart/alternative; boundary=\"") ++ b ++ ("\""), (""),
       ("--") ++ b,
       ("Content-Type: text/plain; charset=UTF-8"),
       ("Content-Transfer-Encoding: 7bit"), (""),
       req.body, (""),
       ("--") ++ b,
       ("Content-Type: text/html; charset=UTF-8"),
       ("Content-Transfer-Encoding: 7bit"), (""),
       req.htmlBody.getD (""), (""),
       ("--") ++ b ++ ("--")]).count (("--") ++ b) = 2 ∧
    (headerLines req ++
      [("Content-Type: multipart/alternative; boundary=\"") ++ b ++ ("\""), (""),
       ("--") ++ b,
       ("Content-Type: text/plain; charset=UTF-8"),
       ("Content-Transfer-Encoding: 7bit"), (""),
       req.body, (""),
       ("--") ++ b,
       ("Content-Type: text/html; charset=UTF-8"),
       ("Content-Transfer-Encoding: 7bit"), (""),
       req.htmlBody.getD (""), (""),
       ("--") ++ b ++ ("--")]).count (("--") ++ b ++ ("--")) = 1 := by
  have hmtEq : mimeTypeOf req = ("multipart/alternative") := by
    have hhb2 : (match req.htmlBody with
      | none => false
      | some s => jsStrTruthy s) = true := hhb
    simp [mimeTypeOf, hmt, jsOptTruthy, hhb2, hb]
  have hjs : jsOr req.htmlBody req.body = req.htmlBody.getD ("") :=
    jsOr_truthy req.htmlBody req.body hhb
  have hm0 : (headerLines req).count (("--") ++ b) = 0 := by
    rw [List.count_eq_zero]
    intro hmem
    exact (headerLines_ne_boundary req b _ hmem).1 rfl
  have ht0 : (headerLines req).count (("--") ++ b ++ ("--")) = 0 := by
    rw [List.count_eq_zero]
    intro hmem
    exact (headerLines_ne_boundary req b _ hmem).2 rfl
  have hctm : (("Content-Type: multipart/alternative; boundary=\"") ++ b ++ ("\""))
      ≠ ("--") ++ b :=
    ne_of_take2 _ _ _ _ (ctMulti_take2 b) (marker_take2 b) (by decide)
  have hctm2 : (("Content-Type: multipart/alternative; boundary=\"") ++ b ++ ("\""))
      ≠ ("--") ++ b ++ ("--") :=
    ne_of_take2 _ _ _ _ (ctMulti_take2 b) (term_take2 b) (by decide)
  have hemp : ("") ≠ ("--") ++ b :=
    ne_of_take2 _ _ _ _ rfl (marker_take2 b) (by decide)
  have hemp2 : ("") ≠ ("--") ++ b ++ ("--") :=
    ne_of_take2 _ _ _ _ rfl (term_take2 b) (by decide)
  have hplain : ("Content-Type: text/plain; charset=UTF-8") ≠ ("--") ++ b :=
    ne_of_take2 _ _ _ _ rfl (marker_take2 b) (by decide)
  have hplain2 : ("Content-Type: text/plain; charset=UTF-8") ≠ ("--") ++ b ++ ("--") :=
    ne_of_take2 _ _ _ _ rfl (term_take2 b) (by decide)
  have hhtml : ("Content-Type: text/html; charset=UTF-8") ≠ ("--") ++ b :=
    ne_of_take2 _ _ _ _ rfl (marker_take2 b) (by decide)
  have hhtml2 : ("Content-Type: text/html; charset=UTF-8") ≠ ("--") ++ b ++ ("--") :=
    ne_of_take2 _ _ _ _ rfl (term_take2 b) (by decide)
  have hcte : ("Content-Transfer-Encoding: 7bit") ≠ ("--") ++ b :=
    ne_of_take2 _ _ _ _ rfl (marker_take2 b) (by decide)
  have hcte2 : ("Content-Transfer-Encoding: 7bit") ≠ ("--") ++ b ++ ("--") :=
    ne_of_take2 _ _ _ _ rfl (term_take2 b) (by decide)
  have htm := term_ne_marker b
  have hmt2 : (("--") ++ b) ≠ ("--") ++ b ++ ("--") := fun he => htm he.symm
  refine ⟨hmtEq, ?_, ?_, ?_⟩
  · have h1' : List.find? (fun e => !(validateEmail e)) req.recipients = none := h1
    have h2' : (match req.cc with
      | some addrs => List.find? (fun e => !(validateEmail e)) addrs
      | none => none) = (none : Option String) := h2
    have h3' : (match req.bcc with
      | some addrs => List.find? (fun e => !(validateEmail e)) addrs
      | none => none) = (none : Option String) := h3
    simp [createEmailMessageParts, firstInvalid, h1', h2', h3', hmtEq, hjs]
  · rw [List.count_append, hm0]
    simp [List.count_cons, hctm, hemp, hplain, hhtml, hcte, hb1, hh1, htm]
  · rw [List.count_append, ht0]
    simp [List.count_cons, hctm2, hemp2, hplain2, hhtml2, hcte2, hb2, hh2, hmt2]

/-- C4 witness: the theorem evaluated at the concrete two-body request. -/
theorem C4_witness :
    mimeTypeOf c4Req = ("multipart/alternative") ∧
    createEmailMessageParts c4Req ("B") = .ok (headerLines c4Req ++
      [("Content-Type: multipart/alternative; boundary=\"") ++ ("B") ++ ("\""), (""),
       ("--") ++ ("B"),
       ("Content-Type: text/plain; charset=UTF-8"),
       ("Content-Transfer-Encoding: 7bit"), (""),
       c4Req.body, (""),
       ("--") ++ ("B"),
       ("Content-Type: text/html; charset=UTF-8"),
       ("Content-Transfer-Encoding: 7bit"), (""),
       c4Req.htmlBody.getD (""), (""),
       ("--") ++ ("B") ++ ("--")]) ∧
    (headerLines c4Req ++
      [("Content-Type: multipart/alternative; boundary=\"") ++ ("B") ++ ("\""), (""),
       ("--") ++ ("B"),
       ("Content-Type: text/plain; charset=UTF-8"),
       ("Content-Transfer-Encoding: 7bit"), (""),
       c4Req.body, (""),
       ("--") ++ ("B"),
       ("Content-Type: text/html; charset=UTF-8"),
       ("Content-Transfer-Encoding: 7bit"), (""),
       c4Req.htmlBody.getD (""), (""),
       ("--") ++ ("B") ++ ("--")]).count (("--") ++ ("B")) = 2 ∧
    (headerLines c4Req ++
      [("Content-Type: multipart/alternative; boundary=\"") ++ ("B") ++ ("\""), (""),
       ("--") ++ ("B"),
       ("Content-Type: text/plain; charset=UTF-8"),
       ("Content-Transfer-Encoding: 7bit"), (""),
       c4Req.body, (""),
       ("--") ++ ("B"),
       ("Content-Type: text/html; charset=UTF-8"),
       ("Content-Transfer-Encoding: 7bit"), (""),
       c4Req.htmlBody.getD (""), (""),
       ("--") ++ ("B") ++ ("--")]).count (("--") ++ ("B") ++ ("--")) = 1 :=
  C4_theorem c4Req ("B") rfl (by decide) (by decide) (by decide) rfl rfl
    (by decide) (by decide) (by decide) (by decide)

/-- C5: the claim that an HTML-only request reuses the HTML content as a
plain-text fallback part fails on this input: the message carries a single
HTML part and no plain-text part at all. -/
theorem C5_counterexample :
    mimeTypeOf c5Req = ("text/html") ∧
    createEmailMessageParts c5Req ("B") =
      .ok [("From: me"), ("To: user@example.com"), ("Subject: S"), ("MIME-Version: 1.0"),
           ("Content-Type: text/html; charset=UTF-8"), ("Content-Transfer-Encoding: 7bit"),
           (""), ("<b>Hi</b>")] ∧
    ¬ (("Content-Type: text/plain; charset=UTF-8") ∈
      [("From: me"), ("To: user@example.com"), ("Subject: S"), ("MIME-Version: 1.0"),
       ("Content-Type: text/html; charset=UTF-8"), ("Content-Transfer-Encoding: 7bit"),
       (""), ("<b>Hi</b>")]) := by
  refine ⟨by decide, by decide, by decide⟩

/-- C5 (amended): a request whose HTML body is truthy and whose plain body
is empty with no override selects the HTML content type and emits a single
HTML part whose content is the HTML body; no plain-text fallback part is
emitted anywhere in the message. -/
theorem C5_theorem (req : EmailRequest) (b : String)
    (hmt : req.mimeType = none)
    (hbody : jsStrTruthy req.body = false)
    (hhb : jsOptTruthy req.htmlBody = true)
    (h1 : firstInvalid (some req.recipients) = none)
    (h2 : firstInvalid req.cc = none)
    (h3 : firstInvalid req.bcc = none)
    (hne : req.htmlBody.getD ("") ≠ ("Content-Type: text/plain; charset=UTF-8")) :
    mimeTypeOf req = ("text/html") ∧
    createEmailMessageParts req b = .ok (headerLines req ++
      [("Content-Type: text/html; charset=UTF-8"),
       ("Content-Transfer-Encoding: 7bit"), (""),
       req.htmlBody.getD ("")]) ∧
    ¬ (("Content-Type: text/plain; charset=UTF-8") ∈ (headerLines req ++
      [("Content-Type: text/html; charset=UTF-8"),
       ("Content-Transfer-Encoding: 7bit"), (""),
       req.htmlBody.getD ("")])) := by
  have hhb2 : (match req.htmlBody with
    | none => false
    | some s => jsStrTruthy s) = true := hhb
  have hmtEq : mimeTypeOf req = ("text/html") := by
    simp [mimeTypeOf, hmt, jsOptTruthy, hhb2, hbody]
  have hjs : jsOr req.htmlBody req.body = req.htmlBody.getD ("") :=
    jsOr_truthy req.htmlBody req.body hhb
  refine ⟨hmtEq, ?_, ?_⟩
  · have h1' : List.find? (fun e => !(validateEmail e)) req.recipients = none := h1
    have h2' : (match req.cc with
      | some addrs => List.find? (fun e => !(validateEmail e)) addrs
      | none => none) = (none : Option String) := h2
    have h3' : (match req.bcc with
      | some addrs => List.find? (fun e => !(validateEmail e)) addrs
      | none => none) = (none : Option String) := h3
    simp [createEmailMessageParts, firstInvalid, h1', h2', h3', hmtEq, hjs]
  · intro hmem
    rw [List.mem_append] at hmem
    rcases hmem with hmem | hmem
    · have ht2 := headerLines_take2 req _ hmem
      exact absurd ht2 (by decide)
    · simp only [List.mem_cons, List.not_mem_nil, or_false] at hmem
      rcases hmem with h | h | h | h
      · exact absurd h (by decide)
      · exact absurd h (by decide)
      · exact absurd h (by decide)
      · exact hne h.symm

/-- C5 witness: the amended theorem evaluated at the concrete HTML-only
request. -/
theorem C5_witness :
    mimeTypeOf c5Req = ("text/html") ∧
    createEmailMessageParts c5Req ("B") = .ok (headerLines c5Req ++
      [("Content-Type: text/html; charset=UTF-8"),
       ("Content-Transfer-Encoding: 7bit"), (""),
       c5Req.htmlBody.getD ("")]) ∧
    ¬ (("Content-Type: text/plain; charset=UTF-8") ∈ (headerLines c5Req ++
      [("Content-Type: text/html; charset=UTF-8"),
       ("Content-Transfer-Encoding: 7bit"), (""),
       c5Req.htmlBody.getD ("")])) :=
  C5_theorem c5Req ("B") rfl (by decide) (by decide) (by decide) rfl rfl (by decide)

/-- Boolean prefix test agrees with the prefix relation. -/
theorem isPrefixOf_eq_true (l m : List Char) : l.isPrefixOf m = true ↔ l <+: m :=
  List.isPrefixOf_iff_prefix

/-- Boolean suffix test agrees with the suffix relation. -/
theorem isSuffixOf_eq_true (l m : List Char) : l.isSuffixOf m = true ↔ l <:+ m :=
  List.isSuffixOf_iff_suffix

/-- Shop name characters are not JavaScript whitespace. -/
theorem shopChar_not_ws (c : Char) (h : shopChar c = true) : isJsWs c = false := by
  by_contra hw
  rw [Bool.not_eq_false] at hw
  have hc : c ∈ wsChars := by simpa [isJsWs] using hw
  fin_cases hc <;> exact absurd h (by decide)

/-- A predicate false on every element leaves the list unchanged under
dropWhile. -/
theorem dropWhile_eq_self_of_false {p : Char → Bool} (l : List Char)
    (h : ∀ c ∈ l, p c = false) : l.dropWhile p = l := by
  cases l with
  | nil => rfl
  | cons c cs => simp [List.dropWhile_cons, h c (List.mem_cons_self c cs)]

/-- A list without whitespace at either end is unchanged by the trim; here
stated for lists free of whitespace everywhere. -/
theorem jsTrimL_eq_self (l : List Char) (h : ∀ c ∈ l, isJsWs c = false) :
    jsTrimL l = l := by
  unfold jsTrimL
  rw [dropWhile_eq_self_of_false l h,
    dropWhile_eq_self_of_false l.reverse (fun c hc => h c (List.mem_reverse.mp hc)),
    List.reverse_reverse]

/-- A list of shop name characters has no protocol scheme to strip. -/
theorem stripProto_eq_self (l : List Char) (h : ∀ c ∈ l, shopChar c = true) :
    stripProto l = l := by
  have hcolon : (':') ∉ l := by
    intro hc
    exact absurd (h (':') hc) (by decide)
  have h8 : (("https://").data).isPrefixOf l = false := by
    by_contra hp
    rw [Bool.not_eq_false, isPrefixOf_eq_true] at hp
    obtain ⟨t, ht⟩ := hp
    exact hcolon (by rw [← ht]; exact List.mem_append.mpr (Or.inl (by decide)))
  have h7 : (("http://").data).isPrefixOf l = false := by
    by_contra hp
    rw [Bool.not_eq_false, isPrefixOf_eq_true] at hp
    obtain ⟨t, ht⟩ := hp
    exact hcolon (by rw [← ht]; exact List.mem_append.mpr (Or.inl (by decide)))
  simp [stripProto, h8, h7]

/-- A list of shop name characters has no trailing slash to strip. -/
theorem stripTrailSlash_eq_self (l : List Char) (h : ∀ c ∈ l, shopChar c = true) :
    stripTrailSlash l = l := by
  have hg : ¬ ((l.getLast? == some ('/')) = true) := by
    intro hg
    rw [beq_iff_eq] at hg
    have hm := List.mem_of_mem_getLast? hg
    exact absurd (h ('/') hm) (by decide)
  simp [stripTrailSlash, hg]

/-- The final character of an appended list is the final character of the
right part when that part is nonempty. -/
theorem lastChar_append (l m : List Char) (d : Char) (hm : m ≠ []) :
    lastChar (l ++ m) d = lastChar m d := by
  induction l with
  | nil => rfl
  | cons a l ih =>
    cases hlm : l ++ m with
    | nil => exact absurd (List.append_eq_nil.mp hlm).2 hm
    | cons y ys =>
      have h1 : lastChar ((a :: l) ++ m) d = lastChar (l ++ m) d := by
        rw [List.cons_append, hlm]
        rfl
      rw [h1, ih]

/-- Alphanumeric characters are shop name characters. -/
theorem alnum_shopChar (c : Char) (h : isShopAlnum c = true) : shopChar c = true := by
  simp [shopChar, h]

/-- Characterization of the tail matcher: a nonempty list of shop name
characters whose final character is alphanumeric. -/
theorem validShopTail_iff (cs : List Char) :
    validShopTail cs = true ↔
      cs ≠ [] ∧ (∀ c ∈ cs, shopChar c = true) ∧ isShopAlnum (lastChar cs ('?')) = true := by
  induction cs with
  | nil => simp [validShopTail]
  | cons c cs ih =>
    cases cs with
    | nil =>
      constructor
      · intro h
        have hc : isShopAlnum c = true := h
        refine ⟨by simp, fun x hx => ?_, hc⟩
        rw [List.mem_singleton] at hx
        subst hx
        exact alnum_shopChar x hc
      · rintro ⟨_, _, hl⟩
        exact hl
    | cons c2 cs2 =>
      have hstep : validShopTail (c :: c2 :: cs2) =
          (shopChar c && validShopTail (c2 :: cs2)) := rfl
      rw [hstep, Bool.and_eq_true, ih]
      constructor
      · rintro ⟨hc, _, hall, hlast⟩
        refine ⟨by simp, fun x hx => ?_, hlast⟩
        rcases List.mem_cons.mp hx with rfl | hx
        · exact hc
        · exact hall x hx
      · rintro ⟨_, hall, hlast⟩
        exact ⟨hall c (by simp), by simp, fun x hx => hall x (List.mem_cons_of_mem c hx), hlast⟩

/-- Characterization of the shop name pattern: at least two characters, an
alphanumeric first and final character, and shop name characters
throughout. -/
theorem isValidShopName_iff (l : List Char) :
    isValidShopName l = true ↔
      2 ≤ l.length ∧ isShopAlnum (l.headD ('?')) = true ∧
        isShopAlnum (lastChar l ('?')) = true ∧ ∀ c ∈ l, shopChar c = true := by
  cases l with
  | nil => simp [isValidShopName]
  | cons c cs =>
    have hstep : isValidShopName (c :: cs) =
        ((isShopAlnum c && validShopTail cs) && decide (1 ≤ (c :: cs).length)) := rfl
    rw [hstep]
    simp only [Bool.and_eq_true, decide_eq_true_eq]
    rw [validShopTail_iff]
    constructor
    · rintro ⟨⟨hc, hne, hall, hlast⟩, _⟩
      refine ⟨?_, by simpa using hc, ?_, ?_⟩
      · cases cs with
        | nil => exact absurd rfl hne
        | cons c2 cs2 => simp [List.length_cons]
      · cases cs with
        | nil => exact absurd rfl hne
        | cons c2 cs2 => exact hlast
      · intro x hx
        rcases List.mem_cons.mp hx with rfl | hx
        · exact alnum_shopChar x hc
        · exact hall x hx
    · rintro ⟨hlen, hhead, hlast, hall⟩
      have hcs : cs ≠ [] := by
        intro h0
        rw [h0] at hlen
        simp at hlen
      refine ⟨⟨by simpa using hhead, hcs,
        fun x hx => hall x (List.mem_cons_of_mem c hx), ?_⟩, by simp⟩
      cases cs with
      | nil => exact absurd rfl hcs
      | cons c2 cs2 => exact hlast

/-- Shop name validity forces all characters into the shop class. -/
theorem valid_to_all (l : List Char) (h : isValidShopName l = true) :
    ∀ c ∈ l, shopChar c = true :=
  ((isValidShopName_iff l).mp h).2.2.2

/-- Shop name validity forces at least two characters. -/
theorem valid_to_len (l : List Char) (h : isValidShopName l = true) : 2 ≤ l.length :=
  ((isValidShopName_iff l).mp h).1

/-- Shop name validity forces an alphanumeric first character. -/
theorem valid_to_head (l : List Char) (h : isValidShopName l = true) :
    isShopAlnum (l.headD ('?')) = true :=
  ((isValidShopName_iff l).mp h).2.1

/-- Constructor direction of the shop name characterization. -/
theorem valid_of (l : List Char) (h1 : 2 ≤ l.length)
    (h2 : isShopAlnum (l.headD ('?')) = true)
    (h3 : isShopAlnum (lastChar l ('?')) = true)
    (h4 : ∀ c ∈ l, shopChar c = true) : isValidShopName l = true :=
  (isValidShopName_iff l).mpr ⟨h1, h2, h3, h4⟩

/-- A pattern occurring as a suffix occurs somewhere, and removing the first
occurrence splits the list around one occurrence of the pattern. -/
theorem removeFirstOcc_decomp (pat : List Char) (hpat : pat ≠ []) :
    ∀ l : List Char, pat.isSuffixOf l = true →
      ∃ pre post, l = pre ++ pat ++ post ∧ removeFirstOcc pat l = pre ++ post := by
  intro l
  induction l with
  | nil =>
    intro h
    rw [isSuffixOf_eq_true, List.suffix_nil] at h
    exact absurd h hpat
  | cons c cs ih =>
    intro h
    by_cases hp : pat.isPrefixOf (c :: cs) = true
    · obtain ⟨t, ht⟩ := (isPrefixOf_eq_true _ _).mp hp
      refine ⟨[], (c :: cs).drop pat.length, ?_, ?_⟩
      · rw [List.nil_append, ← ht, List.drop_left]
      · simp only [removeFirstOcc]
        rw [if_pos hp, List.nil_append]
    · have hsuf : pat.isSuffixOf cs = true := by
        rw [isSuffixOf_eq_true] at h ⊢
        obtain ⟨t, ht⟩ := h
        cases t with
        | nil =>
          rw [List.nil_append] at ht
          exact absurd ((isPrefixOf_eq_true _ _).mpr (ht ▸ List.prefix_rfl)) hp
        | cons x t2 =>
          rw [List.cons_append] at ht
          injection ht with h1 h2
          exact ⟨t2, h2⟩
      obtain ⟨pre, post, heq, hrm⟩ := ih hsuf
      refine ⟨c :: pre, post, ?_, ?_⟩
      · rw [List.cons_append, List.cons_append, ← List.cons_append, List.cons_append]
        rw [← heq]
      · simp only [removeFirstOcc]
        rw [if_neg hp, hrm, List.cons_append]

/-- Every character of the domain suffix is a shop name character. -/
theorem shopSuffix_all : ∀ c ∈ shopSuffix, shopChar c = true := by decide

/-- Every domain produced by normalization satisfies the invariant. -/
theorem normalizeL_ok_good (s d : List Char)
    (h : normalizeShopifyDomainL s = .ok d) : goodShopDomain d := by
  unfold normalizeShopifyDomainL at h
  by_cases hemp : (jsTrimL s).isEmpty = true
  · rw [if_pos hemp] at h
    simp at h
  · rw [if_neg hemp] at h
    by_cases hsuf : shopSuffix.isSuffixOf (stripTrailSlash (stripProto (jsTrimL s))) = true
    · rw [if_pos hsuf] at h
      by_cases hval : isValidShopName
          (removeFirstOcc shopSuffix (stripTrailSlash (stripProto (jsTrimL s)))) = true
      · rw [if_pos hval] at h
        injection h with hd
        subst hd
        refine ⟨?_, hsuf, hval⟩
        obtain ⟨pre, post, heq, hrm⟩ := removeFirstOcc_decomp shopSuffix (by decide) _ hsuf
        have hall := valid_to_all _ hval
        rw [hrm] at hall
        intro c hc
        rw [heq] at hc
        rcases List.mem_append.mp hc with hc | hc
        · rcases List.mem_append.mp hc with hc | hc
          · exact hall c (List.mem_append.mpr (Or.inl hc))
          · exact shopSuffix_all c hc
        · exact hall c (List.mem_append.mpr (Or.inr hc))
      · rw [if_neg hval] at h
        simp at h
    · rw [if_neg hsuf] at h
      by_cases hval : isValidShopName (stripTrailSlash (stripProto (jsTrimL s))) = true
      · rw [if_pos hval] at h
        injection h with hd
        subst hd
        have hall0 := valid_to_all _ hval
        have hlen0 := valid_to_len _ hval
        have hhead0 := valid_to_head _ hval
        set d0 := stripTrailSlash (stripProto (jsTrimL s)) with hd0def
        refine ⟨?_, ?_, ?_⟩
        · intro c hc
          rcases List.mem_append.mp hc with hc | hc
          · exact hall0 c hc
          · exact shopSuffix_all c hc
        · rw [isSuffixOf_eq_true]
          exact List.suffix_append d0 shopSuffix
        · have hsuf2 : shopSuffix.isSuffixOf (d0 ++ shopSuffix) = true := by
            rw [isSuffixOf_eq_true]
            exact List.suffix_append d0 shopSuffix
          obtain ⟨pre, post, heq, hrm⟩ := removeFirstOcc_decomp shopSuffix (by decide) _ hsuf2
          rw [hrm]
          rcases post with _ | ⟨y, ys⟩
          · have heq2 : d0 ++ shopSuffix = pre ++ shopSuffix := by
              simpa using heq
            have hpre : d0 = pre := List.append_cancel_right heq2
            rw [← hpre]
            simpa using hval
          · have hd0ne : d0 ≠ [] := by
              intro h0
              rw [h0] at hlen0
              simp at hlen0
            obtain ⟨w, ws, hd0c⟩ := List.exists_cons_of_ne_nil hd0ne
            rcases pre with _ | ⟨x, xs⟩
            · exfalso
              rw [List.nil_append, hd0c] at heq
              have hsx : shopSuffix = ('.') :: (("myshopify.com").data) := rfl
              rw [hsx] at heq
              simp only [List.cons_append] at heq
              injection heq with h1 h2
              rw [hd0c] at hhead0
              simp only [List.headD_cons] at hhead0
              rw [h1] at hhead0
              exact absurd hhead0 (by decide)
            · have hlenq := congrArg List.length heq
              simp only [List.length_append, List.length_cons] at hlenq
              rw [hd0c] at hlenq
              simp only [List.length_cons] at hlenq
              apply valid_of
              · simp only [List.cons_append, List.length_cons, List.length_append]
                omega
              · rw [hd0c] at heq
                simp only [List.cons_append] at heq
                injection heq with h1 h2
                rw [List.cons_append, List.headD_cons, ← h1]
                rw [hd0c] at hhead0
                simpa using hhead0
              · have e1 : lastChar (d0 ++ shopSuffix) ('?') = ('m') := by
                  rw [lastChar_append _ _ _ (by decide)]
                  rfl
                have e2 : lastChar (d0 ++ shopSuffix) ('?') = lastChar (y :: ys) ('?') := by
                  rw [heq]
                  rw [show (x :: xs) ++ shopSuffix ++ (y :: ys) =
                    ((x :: xs) ++ shopSuffix) ++ (y :: ys) from by simp]
                  exact lastChar_append _ _ _ (by simp)
                rw [lastChar_append (x :: xs) (y :: ys) _ (by simp), ← e2, e1]
                decide
              · intro c hc
                have hcd : c ∈ d0 ++ shopSuffix := by
                  rw [heq]
                  rcases List.mem_append.mp hc with hc | hc
                  · exact List.mem_append.mpr
                      (Or.inl (List.mem_append.mpr (Or.inl hc)))
                  · exact List.mem_append.mpr (Or.inr hc)
                rcases List.mem_append.mp hcd with hcc | hcc
                · exact hall0 c hcc
                · exact shopSuffix_all c hcc
      · rw [if_neg hval] at h
        simp at h

/-- Every domain satisfying the invariant is a fixed point of
normalization. -/
theorem normalizeL_good_fix (d : List Char) (hg : goodShopDomain d) :
    normalizeShopifyDomainL d = .ok d := by
  obtain ⟨hall, hsuf, hval⟩ := hg
  have hws : ∀ c ∈ d, isJsWs c = false := fun c hc => shopChar_not_ws c (hall c hc)
  have htrim : jsTrimL d = d := jsTrimL_eq_self d hws
  have hne : d ≠ [] := by
    intro h0
    rw [h0, isSuffixOf_eq_true, List.suffix_nil] at hsuf
    exact absurd hsuf (by decide)
  have hie : d.isEmpty = false := by
    cases d with
    | nil => exact absurd rfl hne
    | cons c cs => rfl
  unfold normalizeShopifyDomainL
  rw [htrim]
  rw [if_neg (by rw [hie]; exact Bool.false_ne_true)]
  rw [stripProto_eq_self d hall, stripTrailSlash_eq_self d hall]
  rw [if_pos hsuf, if_pos hval]

/-- C3: normalization maps the four sample inputs as specified and is
idempotent, in that any domain it produces is its own normalization. -/
theorem C3_theorem :
    normalizeShopifyDomain ("foo.myshopify.com") = .ok ("foo.myshopify.com") ∧
    normalizeShopifyDomain ("https://foo.myshopify.com/") = .ok ("foo.myshopify.com") ∧
    normalizeShopifyDomain ("foo") = .ok ("foo.myshopify.com") ∧
    normalizeShopifyDomain ("-bad-") = .error ("Nombre de tienda inválido") ∧
    ∀ s d : String, normalizeShopifyDomain s = .ok d →
      normalizeShopifyDomain d = .ok d := by
  refine ⟨by decide, by decide, by decide, by decide, ?_⟩
  intro s d h
  unfold normalizeShopifyDomain at h ⊢
  rcases hL : normalizeShopifyDomainL s.data with e | l
  · rw [hL] at h
    simp at h
  · rw [hL] at h
    simp only [Except.ok.injEq] at h
    subst h
    have hg := normalizeL_ok_good _ _ hL
    have hfix := normalizeL_good_fix l hg
    have hdata : (String.mk l).data = l := rfl
    rw [hdata, hfix]

/-- C3 witness: idempotence applied to the concrete normalization of the
bare shop name. -/
theorem C3_witness :
    normalizeShopifyDomain ("foo.myshopify.com") = .ok ("foo.myshopify.com") :=
  C3_theorem.2.2.2.2 ("foo") ("foo.myshopify.com") (by decide)
